import Mathlib

/-
Verification development for the iotdomain messaging package: signing and
encryption of published messages (MessageSigner, JWS/JWE codec helpers and
the raw ECDSA signature helpers).

The embedding models the package functions over a symbolic string type.
External cryptographic libraries (go-jose, crypto/ecdsa, encoding/base64,
encoding/asn1, encoding/json) are modelled symbolically: a compact JWS token
is a constructor carrying its payload and the signing key, a compact JWE
token carries the inner string and the recipient key, and signature
verification succeeds exactly when the resolved public key matches the key
the token was signed with (a key pair is a single natural-number identity).
The randomness drawn from the ambient random source by raw ECDSA signing is
made an explicit model argument.
-/

namespace Messaging

/-- The view of the caller-supplied target object after json unmarshalling,
as the reflection code in VerifySignature sees it: a field is none when the
object's type does not have that field at all (reflect.Value.IsValid is
false), and some v when the field exists and holds the string v. -/
structure PayloadObj where
  sender : Option String
  address : Option String
  deriving DecidableEq, Repr

/-- Symbolic model of the wire strings the package manipulates: ordinary
text, the JSON serialization of a payload object, a compact JWS token
(payload and signing-key identity), a compact JWE token (inner string and
recipient-key identity), and the empty string. -/
inductive MStr where
  | lit : String → MStr
  | obj : PayloadObj → MStr
  | jwsTok : MStr → Nat → MStr
  | jweTok : MStr → Nat → MStr
  | empty : MStr
  deriving DecidableEq, Repr

/-- The error values the package produces, one constructor per error site. -/
inductive MErr where
  | unmarshalErr
  | missingSenderField
  | missingSenderInfo
  | noGetPublicKey
  | noPublicKey
  | badSignature
  | signingErr
  | encryptionErr
  | parseErr
  | decryptErr
  deriving DecidableEq, Repr

/-- Model of jose.ParseSigned: succeeds exactly on a compact JWS token,
exposing its payload and the identity of the key it was signed with. -/
def parseSigned : MStr → Option (MStr × Nat)
  | MStr.jwsTok p k => some (p, k)
  | _ => none

/-- Model of jose.ParseEncrypted: succeeds exactly on a compact JWE token,
exposing the inner string and the recipient-key identity. -/
def parseEncrypted : MStr → Option (MStr × Nat)
  | MStr.jweTok m p => some (m, p)
  | _ => none

/-- Model of json.Unmarshal into the caller's object: succeeds exactly when
the string is the JSON serialization of a payload object. -/
def jsonUnmarshal : MStr → Option PayloadObj
  | MStr.obj o => some o
  | _ => none

/-- CreateJWSSignature signs the payload using JOSE ES256 and returns the
compact serialization together with the error value. Modelled from the spec
for the library boundary: jose signing fails (SigningError) when the private
key is absent, and the Go function then returns the empty string with the
error; with a present key it returns the compact JWS token. -/
def CreateJWSSignature (payload : MStr) (privateKey : Option Nat) :
    MStr × Option MErr :=
  match privateKey with
  | none => (MStr.empty, some MErr.signingErr)
  | some k => (MStr.jwsTok payload k, none)

/-- EncryptMessage encrypts and serializes the message using JWE. Mirrors
the source: when the encrypter cannot be constructed (modelled: the
recipient public key is nil) the original message is returned together with
the error; otherwise the compact JWE token is returned with no error. -/
def EncryptMessage (message : MStr) (publicKey : Option Nat) :
    MStr × Option MErr :=
  match publicKey with
  | none => (message, some MErr.encryptionErr)
  | some p => (MStr.jweTok message p, none)

/-- DecryptMessage deserializes and decrypts the message using JWE,
returning (isEncrypted, message, err). Mirrors the source: if ParseEncrypted
fails, it returns false, the input unchanged, and the parse error; if it
parses, it returns true together with the decryption result — on decryption
failure (wrong or absent private key) the decrypted bytes are nil, so the
returned message is the empty string, with the decryption error. -/
def DecryptMessage (serialized : MStr) (privateKey : Option Nat) :
    Bool × MStr × Option MErr :=
  match parseEncrypted serialized with
  | some (inner, p) =>
      match privateKey with
      | some k =>
          if k = p then (true, inner, none)
          else (true, MStr.empty, some MErr.decryptErr)
      | none => (true, MStr.empty, some MErr.decryptErr)
  | none => (false, serialized, some MErr.parseErr)

/-- VerifySignature verifies whether a message is JWS signed, returning
(isSigned, unmarshalled object, err); the middle component models the
caller's object out-parameter (none when unmarshalling did not fill it).
Mirrors the source control flow: if ParseSigned fails, unmarshal directly
and return isSigned = false; otherwise unmarshal the unverified payload,
resolve the sender through the Sender field or, when the object's type has
no Sender field, the Address field; fail when neither field exists (the
source returns isSigned = false there), when the resolved value is empty,
when the key-lookup function is nil, or when it yields no key; finally
verify the token against the resolved public key. -/
def VerifySignature (rawMessage : MStr)
    (getPublicKey : Option (String → Option Nat)) :
    Bool × Option PayloadObj × Option MErr :=
  match parseSigned rawMessage with
  | none =>
      match jsonUnmarshal rawMessage with
      | some o => (false, some o, none)
      | none => (false, none, some MErr.unmarshalErr)
  | some (payload, sigKey) =>
      match jsonUnmarshal payload with
      | none => (true, none, some MErr.unmarshalErr)
      | some o =>
          let reflSender : Option String :=
            match o.sender with
            | some v => some v
            | none => o.address
          match reflSender with
          | none => (false, some o, some MErr.missingSenderField)
          | some sender =>
              if sender = "" then (true, some o, some MErr.missingSenderInfo)
              else
                match getPublicKey with
                | none => (true, some o, some MErr.noGetPublicKey)
                | some f =>
                    match f sender with
                    | none => (true, some o, some MErr.noPublicKey)
                    | some publicKey =>
                        if publicKey = sigKey then (true, some o, none)
                        else (true, some o, some MErr.badSignature)

/-- MessageSigner for signing and verifying of signed and encrypted
messages. The messenger capability is modelled by its Publish method, a
function from address, retained flag and message to the transport's error
result. -/
structure MessageSigner where
  getPublicKey : Option (String → Option Nat)
  publish : String → Bool → MStr → Option MErr
  signMessages : Bool
  signingKey : Option Nat

/-- NewMessageSigner creates a new instance for signing and verifying
published messages. -/
def NewMessageSigner (signMessages : Bool)
    (getPublicKey : Option (String → Option Nat))
    (publish : String → Bool → MStr → Option MErr)
    (signingKey : Option Nat) : MessageSigner :=
  { getPublicKey := getPublicKey, publish := publish,
    signMessages := signMessages, signingKey := signingKey }

/-- VerifySignedMessage parses and verifies the message signature using the
signer's bound key-lookup function. -/
def VerifySignedMessage (signer : MessageSigner) (rawMessage : MStr) :
    Bool × Option PayloadObj × Option MErr :=
  VerifySignature rawMessage signer.getPublicKey

/-- PublishEncrypted signs and encrypts the payload and publishes the
result, returning (message handed to the messenger's Publish, error returned
to the caller). Mirrors the source exactly, including its error flow: the
error of CreateJWSSignature is overwritten by the error of EncryptMessage,
which is in turn overwritten by the error of Publish, so only the
transport's error reaches the caller; on a signing failure the message
variable holds the empty string CreateJWSSignature returned, and on an
encryption failure EncryptMessage hands back the unencrypted message, which
is then published. -/
def PublishEncrypted (signer : MessageSigner) (address : String)
    (retained : Bool) (payload : MStr) (publicKey : Option Nat) :
    MStr × Option MErr :=
  let signStep :=
    if signer.signMessages then CreateJWSSignature payload signer.signingKey
    else (payload, none)
  let message := signStep.1
  let encStep := EncryptMessage message publicKey
  let emessage := encStep.1
  let err := signer.publish address retained emessage
  (emessage, err)

/-- PublishSigned signs the payload and publishes the result, returning
(message handed to the messenger's Publish, error returned to the caller).
Mirrors the source exactly: a CreateJWSSignature error is only logged and
then overwritten by the error of Publish, and the message variable holds
whatever CreateJWSSignature returned (the empty string on failure). -/
def PublishSigned (signer : MessageSigner) (address : String)
    (retained : Bool) (payload : MStr) : MStr × Option MErr :=
  let signStep :=
    if signer.signMessages then CreateJWSSignature payload signer.signingKey
    else (payload, none)
  let message := signStep.1
  let err := signer.publish address retained message
  (message, err)

/-- PublishObject marshals the object (always succeeds in the model) and
dispatches to PublishEncrypted when an encryption key is provided, else to
PublishSigned. -/
def PublishObject (signer : MessageSigner) (address : String)
    (retained : Bool) (object : PayloadObj) (encryptionKey : Option Nat) :
    MStr × Option MErr :=
  match encryptionKey with
  | some k => PublishEncrypted signer address retained (MStr.obj object) (some k)
  | none => PublishSigned signer address retained (MStr.obj object)

/-- A raw ECDSA P-256 signature value: the SHA-256 digest is modelled as the
payload itself (ideal injective hash), together with the signing-key
identity and the random nonce drawn from the ambient random source
(rand.Reader at the call site in the source). -/
structure EcdsaSig where
  payload : MStr
  keyId : Nat
  nonce : Nat
  deriving DecidableEq, Repr

/-- The space of signature strings VerifyEcdsaSignature can receive: a
base64url encoding of a DER-encoded (r, s) pair, the empty string (valid
base64url whose zero bytes are not ASN.1), a string that is not valid
base64url, and a valid base64url string whose bytes are not an ASN.1 (r, s)
pair. -/
inductive SigStr where
  | enc : EcdsaSig → SigStr
  | emptyStr : SigStr
  | badB64 : String → SigStr
  | badDER : String → SigStr
  deriving DecidableEq, Repr

/-- CreateEcdsaSignature creates an ECDSA256 signature from the payload
using the provided private key, base64url encoded. Mirrors the source: with
a nil private key it returns the empty string (no error value exists in its
signature); with a present key it signs the digest with the randomness drawn
from the random source, here the explicit nonce argument. -/
def CreateEcdsaSignature (payload : MStr) (privateKey : Option Nat)
    (nonce : Nat) : SigStr :=
  match privateKey with
  | none => SigStr.emptyStr
  | some k => SigStr.enc { payload := payload, keyId := k, nonce := nonce }

/-- VerifyEcdsaSignature verifies the payload against a base64url encoded
signature and a public key. Mirrors the source: base64url decode failure
returns false, ASN.1 unmarshal failure returns false, and otherwise the
result of ecdsa.Verify, which in the model succeeds exactly when the
signature was produced over this payload by the matching key pair. -/
def VerifyEcdsaSignature (payload : MStr) (signatureB64urlEncoded : SigStr)
    (publicKey : Nat) : Bool :=
  match signatureB64urlEncoded with
  | SigStr.badB64 _ => false
  | SigStr.badDER _ => false
  | SigStr.emptyStr => false
  | SigStr.enc s => decide (s.keyId = publicKey ∧ s.payload = payload)

/-- Classification of a wire string into envelope states: a JWE token over a
JWS token is signed-then-encrypted, any other JWE token is encrypted but
unsigned, a bare JWS token is signed, anything else is plain. -/
inductive EnvState where
  | plain
  | signedOnly
  | signedThenEncrypted
  | encryptedUnsigned
  deriving DecidableEq, Repr

/-- The envelope state of a wire string. -/
def classify : MStr → EnvState
  | MStr.jweTok (MStr.jwsTok _ _) _ => EnvState.signedThenEncrypted
  | MStr.jweTok _ _ => EnvState.encryptedUnsigned
  | MStr.jwsTok _ _ => EnvState.signedOnly
  | _ => EnvState.plain

/-- Claim C1: signing the serialization of a message m that carries a
non-empty sender with a private key, then opening the result with
VerifySignature under a resolver mapping that sender to the matching public
key, yields the original message, isSigned = true, and no error. -/
theorem C1_round_trip_signed (o : PayloadObj) (k : Nat) (s : String)
    (hs : o.sender = some s) (hne : s ≠ "") :
    VerifySignature (CreateJWSSignature (MStr.obj o) (some k)).1
        (some (fun a => if a = s then some k else none))
      = (true, some o, none) := by
  simp [VerifySignature, CreateJWSSignature, parseSigned, jsonUnmarshal, hs, hne]

/-- Witness for C1 at a concrete message, key and resolver. -/
theorem C1_round_trip_signed_witness :
    VerifySignature
        (CreateJWSSignature (MStr.obj ⟨some "zoneA/pub1/dev7", none⟩) (some 7)).1
        (some (fun a => if a = "zoneA/pub1/dev7" then some 7 else none))
      = (true, some ⟨some "zoneA/pub1/dev7", none⟩, none) :=
  C1_round_trip_signed ⟨some "zoneA/pub1/dev7", none⟩ 7 "zoneA/pub1/dev7" rfl
    (by decide)

/-- Claim C2 (code behavior at the failing input): opening a signed message
whose payload object has neither a Sender nor an Address field returns the
missing-field error together with isSigned = false, although the token did
parse as signed — the source returns false at that site, contradicting its
own documentation that the flag reports whether the message was signed. -/
theorem C2_missing_fields_code_behavior :
    VerifySignature (MStr.jwsTok (MStr.obj ⟨none, none⟩) 5)
        (some (fun _ => some 5))
      = (false, some ⟨none, none⟩, some MErr.missingSenderField) := rfl

/-- Claim C3 (code behavior at the failing input): CreateEcdsaSignature with
a nil private key returns the empty string as its ordinary result — its
signature has no error value at all — instead of failing with a signing
error as the specification requires. -/
theorem C3_nil_key_empty_signature :
    CreateEcdsaSignature (MStr.lit "payload") none 0 = SigStr.emptyStr := rfl

/-- Claim C4 counterexample: on an input that is not a well-formed encrypted
token, DecryptMessage does not return a nil error as the claim states; it
returns the parse error alongside isEncrypted = false. -/
theorem C4_not_encrypted_error_counterexample :
    (DecryptMessage (MStr.lit "hello") (some 1)).2.2 ≠ none := by
  decide

/-- Claim C4 as amended: DecryptMessage distinguishes the two failure modes,
but the not-encrypted outcome carries the parse error rather than no error:
a string that does not parse as an encrypted token yields (false, the input
unchanged, the parse error), while a well-formed encrypted token whose
decryption fails (absent or mismatched private key) yields (true, the empty
string, the decryption error). -/
theorem C4_failure_modes (s : MStr) (k : Option Nat) :
    (parseEncrypted s = none →
      DecryptMessage s k = (false, s, some MErr.parseErr))
    ∧ (∀ inner p, s = MStr.jweTok inner p → k ≠ some p →
      DecryptMessage s k = (true, MStr.empty, some MErr.decryptErr)) := by
  constructor
  · intro h
    simp [DecryptMessage, h]
  · intro inner p hs hk
    subst hs
    cases k with
    | none => simp [DecryptMessage, parseEncrypted]
    | some k0 =>
        have hk0 : ¬ k0 = p := fun h => hk (by rw [h])
        simp [DecryptMessage, parseEncrypted, hk0]

/-- Witness for C4 at concrete inputs for both failure modes. -/
theorem C4_failure_modes_witness :
    DecryptMessage (MStr.lit "hello") none
        = (false, MStr.lit "hello", some MErr.parseErr)
    ∧ DecryptMessage (MStr.jweTok (MStr.lit "m") 2) (some 1)
        = (true, MStr.empty, some MErr.decryptErr) :=
  ⟨(C4_failure_modes (MStr.lit "hello") none).1 rfl,
   (C4_failure_modes (MStr.jweTok (MStr.lit "m") 2) (some 1)).2
     (MStr.lit "m") 2 rfl (by decide)⟩

/-- Claim C5: when the signer has signing enabled with a present key and a
recipient public key is supplied, the wire handed to the transport by
PublishEncrypted is the encryption of the JWS token over the plaintext
payload — the signature is computed over the plaintext first and encryption
is applied to the signed token afterwards, never the reverse. -/
theorem C5_sign_then_encrypt (g : Option (String → Option Nat))
    (pub : String → Bool → MStr → Option MErr) (k p : Nat)
    (address : String) (retained : Bool) (payload : MStr) :
    (PublishEncrypted ⟨g, pub, true, some k⟩ address retained payload
        (some p)).1
      = MStr.jweTok (MStr.jwsTok payload k) p := by
  simp [PublishEncrypted, CreateJWSSignature, EncryptMessage]

/-- Claim C6 (code behavior at the failing inputs): with a transport whose
Publish succeeds, PublishEncrypted given a nil encryption key publishes the
unencrypted payload and returns no error (the encryption error is
overwritten), and PublishSigned with signing enabled but a nil signing key
publishes the empty string and returns no error (the signing error is only
logged and then overwritten) — errors are swallowed and degraded payloads
are published as if the call had succeeded. -/
theorem C6_swallowed_errors :
    PublishEncrypted ⟨none, fun _ _ _ => none, false, none⟩ "a" false
        (MStr.lit "m") none
      = (MStr.lit "m", none)
    ∧ PublishSigned ⟨none, fun _ _ _ => none, true, none⟩ "a" false
        (MStr.lit "m")
      = (MStr.empty, none) :=
  ⟨rfl, rfl⟩

/-- Claim C7 counterexample: with signing disabled, PublishEncrypted hands
the transport an encrypted token whose inner content is not signed, so an
encrypted-but-unsigned wire is produced for that configuration of the
MessageSigner. -/
theorem C7_encrypted_unsigned_counterexample :
    classify (PublishEncrypted
        (NewMessageSigner false none (fun _ _ _ => none) none)
        "a" false (MStr.lit "m") (some 2)).1
      = EnvState.encryptedUnsigned := rfl

/-- Claim C7 as amended: the three-state envelope invariant holds for every
signing-enabled configuration with a present signing key — PublishEncrypted
then produces a signed-then-encrypted wire (or, when encryption fails for
lack of a recipient key, a signed wire) and PublishSigned produces a signed
wire; with signing disabled, PublishEncrypted produces an
encrypted-but-unsigned wire instead. -/
theorem C7_signing_enabled_states (g : Option (String → Option Nat))
    (pub : String → Bool → MStr → Option MErr) (k : Nat)
    (address : String) (retained : Bool) (payload : MStr)
    (encKey : Option Nat) :
    (classify (PublishEncrypted ⟨g, pub, true, some k⟩ address retained
          payload encKey).1 = EnvState.signedThenEncrypted
      ∨ classify (PublishEncrypted ⟨g, pub, true, some k⟩ address retained
          payload encKey).1 = EnvState.signedOnly)
    ∧ classify (PublishSigned ⟨g, pub, true, some k⟩ address retained
        payload).1 = EnvState.signedOnly := by
  refine ⟨?_, rfl⟩
  cases encKey with
  | none => exact Or.inr rfl
  | some p => exact Or.inl rfl

/-- Claim C8 counterexample: a signed message whose object has a Sender
field holding the empty string and a non-empty Address field fails with the
missing-sender error instead of resolving through the Address field — the
fallback is taken only when the Sender field is absent, not when it is
empty. -/
theorem C8_empty_sender_counterexample :
    VerifySignature (MStr.jwsTok (MStr.obj ⟨some "", some "addr"⟩) 3)
        (some (fun a => if a = "addr" then some 3 else none))
      = (true, some ⟨some "", some "addr"⟩, some MErr.missingSenderInfo) :=
  rfl

/-- Claim C8 as amended: the Address field is consulted only when the
object's type lacks a Sender field entirely; in that case, with a non-empty
Address, sender resolution proceeds through the Address value — the key
lookup is invoked on it and verification proceeds against its result — while
a present-but-empty Sender fails with the missing-sender error regardless of
the Address field. -/
theorem C8_address_fallback (o : PayloadObj) (k : Nat)
    (f : String → Option Nat) (a : String)
    (h1 : o.sender = none) (h2 : o.address = some a) (h3 : a ≠ "") :
    VerifySignature (MStr.jwsTok (MStr.obj o) k) (some f)
      = (true, some o,
          match f a with
          | none => some MErr.noPublicKey
          | some pk =>
              if pk = k then none else some MErr.badSignature) := by
  simp only [VerifySignature, parseSigned, jsonUnmarshal, h1, h2, h3,
    if_neg h3]
  cases f a with
  | none => rfl
  | some pk =>
      by_cases hpk : pk = k
      · simp [hpk]
      · simp [hpk]

/-- Witness for C8 at a concrete object whose type lacks a Sender field and
whose Address resolves to the matching key. -/
theorem C8_address_fallback_witness :
    VerifySignature (MStr.jwsTok (MStr.obj ⟨none, some "x"⟩) 1)
        (some (fun _ => some 1))
      = (true, some ⟨none, some "x"⟩, none) := by
  have h := C8_address_fallback ⟨none, some "x"⟩ 1 (fun _ => some 1) "x" rfl
    rfl (by decide)
  simpa using h

/-- Claim C9 counterexample: CreateEcdsaSignature reads the ambient random
source (rand.Reader at its call to ecdsa.Sign), so two calls with identical
explicit arguments but different randomness draws produce different
signatures — identical arguments alone do not give identical results. -/
theorem C9_randomized_signature_counterexample :
    CreateEcdsaSignature (MStr.lit "p") (some 1) 0
      ≠ CreateEcdsaSignature (MStr.lit "p") (some 1) 1 := by
  decide

/-- Claim C9 as amended: the codec operations are stateless — their results
are determined by their explicit arguments together with the entropy drawn
from the shared random source, and by nothing else; for CreateEcdsaSignature
with a present key, two calls on the same payload agree exactly when the
drawn nonces agree. -/
theorem C9_deterministic_given_nonce (payload : MStr) (k n m : Nat) :
    CreateEcdsaSignature payload (some k) n
        = CreateEcdsaSignature payload (some k) m
      ↔ n = m := by
  constructor
  · intro h
    simpa [CreateEcdsaSignature, SigStr.enc.injEq, EcdsaSig.mk.injEq] using h
  · intro h
    rw [h]

/-- Claim C10: VerifyEcdsaSignature is total and returns false, not an
error, on every signature string that is not valid base64url, that decodes
to bytes that are not an ASN.1-DER (r, s) pair, or that is empty — for every
payload and public key. -/
theorem C10_verify_false_on_malformed (payload : MStr) (publicKey : Nat) :
    (∀ s, VerifyEcdsaSignature payload (SigStr.badB64 s) publicKey = false)
    ∧ (∀ s, VerifyEcdsaSignature payload (SigStr.badDER s) publicKey = false)
    ∧ VerifyEcdsaSignature payload SigStr.emptyStr publicKey = false :=
  ⟨fun _ => rfl, fun _ => rfl, rfl⟩

end Messaging
